import Mathlib

/-!
Verification of the Hearts reward-shaping function
(`hearts_gym/envs/reward_function.py`, class `RewardFunction`).

Real-number arithmetic of the source is modelled exactly over `ℚ`
(every constant appearing in the formula is rational).  The game-state
collaborator is modelled as a read-only snapshot structure whose fields
carry the source names (`prev_was_illegals`, `prev_played_cards`, ...).
Player indices are modelled as `ℕ`; the index lists of the source become
functions from indices, per the valid-index contract of the collaborator.
The Python method can fall off the end of its `if`/`elif` chain
(implicitly returning `None`), so the embedding returns `Option ℚ`.
-/

/-- A card suit, as exposed by the card representation collaborator. -/
inductive Suit where
  | spade
  | heart
  | diamond
  | club
deriving DecidableEq, Repr

/-- A playing card: a suit and a numeric rank. -/
structure Card where
  suit : Suit
  rank : ℕ
deriving DecidableEq, Repr

/-- Modelled from the spec: the card representation is out of scope and
`RANK_QUEEN` is read from the game collaborator, which is not part of the
source surface here.  The spec fixes `rank ∈ [2,14]` (ace high), under
which the queen has rank 12. -/
def RANK_QUEEN : ℕ := 12

/-- Modelled from the spec: `getPenalty(card) -> number` is a pure lookup
exposed by the game collaborator, whose code is not part of the source
surface here.  Per the spec, the penalty-bearing cards are the hearts and
the spade queen ("normal Hearts scoring"), the spade queen carrying
penalty weight 13 and each heart the standard unit penalty; all other
cards carry no penalty. -/
def get_penalty (card : Card) : ℚ :=
  if card.suit = Suit.spade ∧ card.rank = RANK_QUEEN then 13
  else if card.suit = Suit.heart then 1
  else 0

/-- The previous-step snapshot read by `compute_reward`, with the field
names used by the source (`self.game.<field>`).  `has_shot_the_moon` is
the collaborator predicate the source calls; it is kept abstract, as the
evaluator only branches on its boolean value. -/
@[ext]
structure GameState where
  prev_was_illegals : ℕ → Bool
  prev_played_cards : ℕ → Option Card
  prev_trick_winner_index : ℕ
  prev_leading_player_index : ℕ
  prev_trick_penalty : Option ℚ
  max_penalty : ℚ
  max_num_cards_on_hand : ℕ
  has_shot_the_moon : ℕ → Bool

/-- The per-card shaping value assigned inside `compute_reward`
(the `card_value` cascade of the source): the spade queen contributes its
full penalty, a heart contributes `penalty * 0.5 * (rank/13)^2 * 13`, and
any other card contributes `0.25 * (rank/13)^2 * 13`. -/
def card_value (card : Card) : ℚ :=
  if card.suit = Suit.spade ∧ card.rank = RANK_QUEEN then
    get_penalty card
  else if card.suit = Suit.heart then
    get_penalty card * (1/2) * ((card.rank : ℚ) / 13) ^ 2 * 13
  else
    (1/4) * ((card.rank : ℚ) / 13) ^ 2 * 13

/-- `RewardFunction.compute_reward` of the source, translated branch for
branch.  The final `if`/`elif` chain of the source has no `else`, so a
fall-through would return Python `None`: the embedding returns `none`
there and `some r` on every explicit `return r`. -/
def compute_reward (g : GameState) (player_index : ℕ)
    (prev_active_player_index : ℕ) (trick_is_over : Bool) : Option ℚ :=
  if g.prev_was_illegals player_index then
    some (-g.max_penalty * (g.max_num_cards_on_hand : ℚ))
  else
    match g.prev_played_cards player_index with
    | none => some 0
    | some card =>
      if trick_is_over ∧ g.has_shot_the_moon player_index then
        some (g.max_penalty * (g.max_num_cards_on_hand : ℚ))
      else
        match g.prev_trick_penalty with
        | some prev_trick_penalty =>
          if g.prev_trick_winner_index = player_index ∧
              g.prev_leading_player_index = player_index then
            some (-prev_trick_penalty - max (get_penalty card) (1/2) * 2)
          else if g.prev_trick_winner_index = player_index ∧
              g.prev_leading_player_index ≠ player_index then
            some (-prev_trick_penalty - max (get_penalty card) (1/2))
          else if g.prev_trick_winner_index ≠ player_index ∧
              g.prev_leading_player_index = player_index then
            some (prev_trick_penalty + max (get_penalty card) (1/2) * 2)
          else if g.prev_trick_winner_index ≠ player_index ∧
              g.prev_leading_player_index ≠ player_index then
            some (prev_trick_penalty + max (get_penalty card) (1/2))
          else
            none
        | none => some (card_value card / 13)

/-! ### Branch-evaluation lemmas

One lemma per `return` site of `compute_reward`, and one per arm of the
`card_value` cascade. -/

/-- Spade-queen arm of the `card_value` cascade. -/
theorem card_value_spade_queen (c : Card)
    (h : c.suit = Suit.spade ∧ c.rank = RANK_QUEEN) :
    card_value c = get_penalty c := by
  unfold card_value
  rw [if_pos h]

/-- Heart arm of the `card_value` cascade (a heart never matches the
spade-queen test). -/
theorem card_value_heart (c : Card) (h : c.suit = Suit.heart) :
    card_value c = get_penalty c * (1/2) * ((c.rank : ℚ) / 13) ^ 2 * 13 := by
  unfold card_value
  have hn : ¬(c.suit = Suit.spade ∧ c.rank = RANK_QUEEN) := by
    rintro ⟨hs, -⟩
    rw [h] at hs
    exact Suit.noConfusion hs
  rw [if_neg hn, if_pos h]

/-- Default arm of the `card_value` cascade. -/
theorem card_value_other (c : Card)
    (h1 : ¬(c.suit = Suit.spade ∧ c.rank = RANK_QUEEN))
    (h2 : c.suit ≠ Suit.heart) :
    card_value c = (1/4) * ((c.rank : ℚ) / 13) ^ 2 * 13 := by
  unfold card_value
  rw [if_neg h1, if_neg h2]

/-- Penalty of a heart under the spec-modelled lookup. -/
theorem get_penalty_heart (c : Card) (h : c.suit = Suit.heart) :
    get_penalty c = 1 := by
  unfold get_penalty
  have hn : ¬(c.suit = Suit.spade ∧ c.rank = RANK_QUEEN) := by
    rintro ⟨hs, -⟩
    rw [h] at hs
    exact Suit.noConfusion hs
  rw [if_neg hn, if_pos h]

/-- Penalty of the spade queen under the spec-modelled lookup. -/
theorem get_penalty_spade_queen (c : Card)
    (h : c.suit = Suit.spade ∧ c.rank = RANK_QUEEN) :
    get_penalty c = 13 := by
  unfold get_penalty
  rw [if_pos h]

/-- Penalty of a non-heart, non-spade-queen card under the spec-modelled
lookup. -/
theorem get_penalty_other (c : Card)
    (h1 : ¬(c.suit = Suit.spade ∧ c.rank = RANK_QUEEN))
    (h2 : c.suit ≠ Suit.heart) :
    get_penalty c = 0 := by
  unfold get_penalty
  rw [if_neg h1, if_neg h2]

/-- Illegal-move branch of `compute_reward`. -/
theorem compute_reward_illegal (g : GameState) (p a : ℕ) (t : Bool)
    (h : g.prev_was_illegals p = true) :
    compute_reward g p a t = some (-g.max_penalty * (g.max_num_cards_on_hand : ℚ)) := by
  simp [compute_reward, h]

/-- No-card ("no information yet") branch of `compute_reward`. -/
theorem compute_reward_no_card (g : GameState) (p a : ℕ) (t : Bool)
    (h1 : g.prev_was_illegals p = false)
    (h2 : g.prev_played_cards p = none) :
    compute_reward g p a t = some 0 := by
  simp [compute_reward, h1, h2]

/-- Shoot-the-moon branch of `compute_reward`. -/
theorem compute_reward_moon (g : GameState) (p a : ℕ) (t : Bool) (card : Card)
    (h1 : g.prev_was_illegals p = false)
    (h2 : g.prev_played_cards p = some card)
    (h3 : t = true ∧ g.has_shot_the_moon p = true) :
    compute_reward g p a t = some (g.max_penalty * (g.max_num_cards_on_hand : ℚ)) := by
  simp [compute_reward, h1, h2, h3.1, h3.2]

/-- Trick branch of `compute_reward`: target won and led. -/
theorem compute_reward_won_led (g : GameState) (p a : ℕ) (t : Bool) (card : Card) (T : ℚ)
    (h1 : g.prev_was_illegals p = false)
    (h2 : g.prev_played_cards p = some card)
    (h3 : ¬(t = true ∧ g.has_shot_the_moon p = true))
    (h4 : g.prev_trick_penalty = some T)
    (hw : g.prev_trick_winner_index = p)
    (hl : g.prev_leading_player_index = p) :
    compute_reward g p a t = some (-T - max (get_penalty card) (1/2) * 2) := by
  simp [compute_reward, h1, h2, h3, h4, hw, hl]

/-- Trick branch of `compute_reward`: target won, did not lead. -/
theorem compute_reward_won_not_led (g : GameState) (p a : ℕ) (t : Bool) (card : Card) (T : ℚ)
    (h1 : g.prev_was_illegals p = false)
    (h2 : g.prev_played_cards p = some card)
    (h3 : ¬(t = true ∧ g.has_shot_the_moon p = true))
    (h4 : g.prev_trick_penalty = some T)
    (hw : g.prev_trick_winner_index = p)
    (hl : g.prev_leading_player_index ≠ p) :
    compute_reward g p a t = some (-T - max (get_penalty card) (1/2)) := by
  simp [compute_reward, h1, h2, h3, h4, hw, hl]

/-- Trick branch of `compute_reward`: target led, did not win. -/
theorem compute_reward_not_won_led (g : GameState) (p a : ℕ) (t : Bool) (card : Card) (T : ℚ)
    (h1 : g.prev_was_illegals p = false)
    (h2 : g.prev_played_cards p = some card)
    (h3 : ¬(t = true ∧ g.has_shot_the_moon p = true))
    (h4 : g.prev_trick_penalty = some T)
    (hw : g.prev_trick_winner_index ≠ p)
    (hl : g.prev_leading_player_index = p) :
    compute_reward g p a t = some (T + max (get_penalty card) (1/2) * 2) := by
  simp [compute_reward, h1, h2, h3, h4, hw, hl]

/-- Trick branch of `compute_reward`: target neither won nor led. -/
theorem compute_reward_not_won_not_led (g : GameState) (p a : ℕ) (t : Bool) (card : Card) (T : ℚ)
    (h1 : g.prev_was_illegals p = false)
    (h2 : g.prev_played_cards p = some card)
    (h3 : ¬(t = true ∧ g.has_shot_the_moon p = true))
    (h4 : g.prev_trick_penalty = some T)
    (hw : g.prev_trick_winner_index ≠ p)
    (hl : g.prev_leading_player_index ≠ p) :
    compute_reward g p a t = some (T + max (get_penalty card) (1/2)) := by
  simp [compute_reward, h1, h2, h3, h4, hw, hl]

/-- Fallback branch of `compute_reward`: no trick has ever closed. -/
theorem compute_reward_no_trick (g : GameState) (p a : ℕ) (t : Bool) (card : Card)
    (h1 : g.prev_was_illegals p = false)
    (h2 : g.prev_played_cards p = some card)
    (h3 : ¬(t = true ∧ g.has_shot_the_moon p = true))
    (h4 : g.prev_trick_penalty = none) :
    compute_reward g p a t = some (card_value card / 13) := by
  simp [compute_reward, h1, h2, h3, h4]

/-! ### Concrete snapshots used as test inputs -/

/-- A quiescent snapshot: nobody has acted, no trick has closed, with the
standard Hearts bounds (`maxPenalty = 13`, `maxNumCardsOnHand = 13`). -/
def baseState : GameState where
  prev_was_illegals := fun _ => false
  prev_played_cards := fun _ => none
  prev_trick_winner_index := 0
  prev_leading_player_index := 0
  prev_trick_penalty := none
  max_penalty := 13
  max_num_cards_on_hand := 13
  has_shot_the_moon := fun _ => false

/-- A field-for-field copy of `baseState`, written as a fresh literal. -/
def baseStateCopy : GameState where
  prev_was_illegals := fun _ => false
  prev_played_cards := fun _ => none
  prev_trick_winner_index := 0
  prev_leading_player_index := 0
  prev_trick_penalty := none
  max_penalty := 13
  max_num_cards_on_hand := 13
  has_shot_the_moon := fun _ => false

/-- Snapshot in which every player's previous move was illegal. -/
def illegalState : GameState :=
  { baseState with prev_was_illegals := fun _ => true }

/-- Snapshot in which the moon predicate holds but no card was played. -/
def moonNoCardState : GameState :=
  { baseState with has_shot_the_moon := fun _ => true }

/-- Snapshot in which the moon predicate holds and an ace of hearts was
played. -/
def moonCardState : GameState :=
  { baseState with
    has_shot_the_moon := fun _ => true,
    prev_played_cards := fun _ => some ⟨Suit.heart, 14⟩ }

/-- Snapshot of the spec's end-to-end example: the spade queen was played
by a player who both led and won a trick of accumulated penalty 5. -/
def queenTrickState : GameState :=
  { baseState with
    prev_played_cards := fun _ => some ⟨Suit.spade, RANK_QUEEN⟩,
    prev_trick_penalty := some 5 }

/-- Snapshot of the spec's other end-to-end example: a 7 of clubs was
played and no trick has ever closed. -/
def clubsSevenState : GameState :=
  { baseState with prev_played_cards := fun _ => some ⟨Suit.club, 7⟩ }

/-! ### The claims -/

/-- C1: whenever `prevWasIllegal[p]` holds, `compute_reward` returns
exactly `-maxPenalty * maxNumCardsOnHand`, regardless of every other
snapshot field and of the other two arguments. -/
theorem reward_illegal_override (g : GameState) (p a : ℕ) (t : Bool)
    (h : g.prev_was_illegals p = true) :
    compute_reward g p a t = some (-(g.max_penalty * (g.max_num_cards_on_hand : ℚ))) := by
  rw [compute_reward_illegal g p a t h, neg_mul]

/-- C1 witness: the illegal branch on a concrete snapshot yields
`-(13 * 13) = -169`. -/
theorem reward_illegal_override_witness :
    compute_reward illegalState 0 1 true = some (-169) := by
  have h := reward_illegal_override illegalState 0 1 true rfl
  rw [h]
  norm_num [illegalState, baseState]

/-- C2: with a defined previous-trick penalty `T` and a non-illegal target
holding a played card, outside the shoot-the-moon branch, the four
(won, led) combinations produce exactly the spec's table; and in the
end-to-end example (spade queen, won and led, accumulated penalty 5) the
reward is exactly `-31`. -/
theorem reward_trick_table (g : GameState) (p a : ℕ) (t : Bool) (card : Card) (T : ℚ)
    (h1 : g.prev_was_illegals p = false)
    (h2 : g.prev_played_cards p = some card)
    (h3 : ¬(t = true ∧ g.has_shot_the_moon p = true))
    (h4 : g.prev_trick_penalty = some T) :
    (g.prev_trick_winner_index = p ∧ g.prev_leading_player_index = p →
      compute_reward g p a t = some (-T - 2 * max (get_penalty card) (1/2))) ∧
    (g.prev_trick_winner_index = p ∧ g.prev_leading_player_index ≠ p →
      compute_reward g p a t = some (-T - max (get_penalty card) (1/2))) ∧
    (g.prev_trick_winner_index ≠ p ∧ g.prev_leading_player_index = p →
      compute_reward g p a t = some (T + 2 * max (get_penalty card) (1/2))) ∧
    (g.prev_trick_winner_index ≠ p ∧ g.prev_leading_player_index ≠ p →
      compute_reward g p a t = some (T + max (get_penalty card) (1/2))) ∧
    compute_reward queenTrickState 0 1 false = some (-31) := by
  refine ⟨?_, ?_, ?_, ?_, ?_⟩
  · rintro ⟨hw, hl⟩
    rw [compute_reward_won_led g p a t card T h1 h2 h3 h4 hw hl]
    congr 1
    ring
  · rintro ⟨hw, hl⟩
    rw [compute_reward_won_not_led g p a t card T h1 h2 h3 h4 hw hl]
  · rintro ⟨hw, hl⟩
    rw [compute_reward_not_won_led g p a t card T h1 h2 h3 h4 hw hl]
    congr 1
    ring
  · rintro ⟨hw, hl⟩
    rw [compute_reward_not_won_not_led g p a t card T h1 h2 h3 h4 hw hl]
  · rw [compute_reward_won_led queenTrickState 0 1 false ⟨Suit.spade, RANK_QUEEN⟩ 5
      rfl rfl (by simp) rfl rfl rfl]
    rw [get_penalty_spade_queen _ ⟨rfl, rfl⟩]
    norm_num

/-- C2 witness: the table applied to the end-to-end example snapshot
(spade queen, won and led, previous-trick penalty 5) gives `-31`. -/
theorem reward_trick_table_witness :
    compute_reward queenTrickState 0 1 false = some (-31) :=
  (reward_trick_table queenTrickState 0 1 false ⟨Suit.spade, RANK_QUEEN⟩ 5
    rfl rfl (by simp) rfl).2.2.2.2

/-- C3 counterexample: a non-illegal target for whom the moon predicate
holds but whose previous played card is absent gets reward `0`, not the
claimed `+maxPenalty * maxNumCardsOnHand`: the no-information branch is
checked before the shoot-the-moon branch. -/
theorem reward_moon_counterexample :
    moonNoCardState.prev_was_illegals 0 = false ∧
    moonNoCardState.has_shot_the_moon 0 = true ∧
    compute_reward moonNoCardState 0 1 true ≠
      some (moonNoCardState.max_penalty * (moonNoCardState.max_num_cards_on_hand : ℚ)) := by
  refine ⟨rfl, rfl, ?_⟩
  rw [compute_reward_no_card moonNoCardState 0 1 true rfl rfl]
  simp only [moonNoCardState, baseState, ne_eq, Option.some.injEq]
  norm_num

/-- C3 amended: for a non-illegal target whose previous played card is
present, if the trick closed and the moon predicate holds, the reward is
exactly `+maxPenalty * maxNumCardsOnHand`. -/
theorem reward_moon_bonus (g : GameState) (p a : ℕ) (card : Card)
    (h1 : g.prev_was_illegals p = false)
    (h2 : g.prev_played_cards p = some card)
    (h3 : g.has_shot_the_moon p = true) :
    compute_reward g p a true = some (g.max_penalty * (g.max_num_cards_on_hand : ℚ)) :=
  compute_reward_moon g p a true card h1 h2 ⟨rfl, h3⟩

/-- C3 witness: the amended moon bonus on a concrete snapshot (ace of
hearts played, moon predicate true) yields `13 * 13 = 169`. -/
theorem reward_moon_bonus_witness :
    compute_reward moonCardState 0 1 true = some (169) := by
  have h := reward_moon_bonus moonCardState 0 1 ⟨Suit.heart, 14⟩ rfl rfl rfl
  rw [h]
  norm_num [moonCardState, baseState]

/-- C4 counterexample: a player whose previous move was illegal and whose
previous played card is absent gets the illegal penalty `-169`, not `0`:
the illegal branch is checked before the no-information branch, so the
result is not independent of the other snapshot fields. -/
theorem reward_no_card_counterexample :
    illegalState.prev_played_cards 0 = none ∧
    compute_reward illegalState 0 1 false ≠ some 0 := by
  refine ⟨rfl, ?_⟩
  rw [compute_reward_illegal illegalState 0 1 false rfl]
  simp only [illegalState, baseState, ne_eq, Option.some.injEq]
  norm_num

/-- C4 amended: for a player whose previous move was not illegal, an
absent previous played card yields reward exactly `0`, for every value of
`trick_is_over` and every other snapshot field. -/
theorem reward_no_information (g : GameState) (p a : ℕ) (t : Bool)
    (h1 : g.prev_was_illegals p = false)
    (h2 : g.prev_played_cards p = none) :
    compute_reward g p a t = some 0 :=
  compute_reward_no_card g p a t h1 h2

/-- C4 witness: the no-information branch on the quiescent snapshot. -/
theorem reward_no_information_witness :
    compute_reward baseState 0 1 true = some 0 :=
  reward_no_information baseState 0 1 true rfl rfl

/-- C5: when no trick has ever closed and the earlier branches do not
fire, the reward is exactly `card_value / 13`, where the per-card value
is the spade queen's full penalty, `penalty * 0.5 * (rank/13)^2 * 13` for
a heart, and `0.25 * (rank/13)^2 * 13` otherwise. -/
theorem reward_no_trick_fallback (g : GameState) (p a : ℕ) (t : Bool) (card : Card)
    (h1 : g.prev_was_illegals p = false)
    (h2 : g.prev_played_cards p = some card)
    (h3 : ¬(t = true ∧ g.has_shot_the_moon p = true))
    (h4 : g.prev_trick_penalty = none) :
    compute_reward g p a t = some (card_value card / 13) ∧
    (card.suit = Suit.spade ∧ card.rank = RANK_QUEEN →
      card_value card = get_penalty card) ∧
    (card.suit = Suit.heart →
      card_value card = get_penalty card * (1/2) * ((card.rank : ℚ) / 13) ^ 2 * 13) ∧
    (¬(card.suit = Suit.spade ∧ card.rank = RANK_QUEEN) → card.suit ≠ Suit.heart →
      card_value card = (1/4) * ((card.rank : ℚ) / 13) ^ 2 * 13) :=
  ⟨compute_reward_no_trick g p a t card h1 h2 h3 h4,
   card_value_spade_queen card,
   card_value_heart card,
   card_value_other card⟩

/-- C5 witness: the fallback on the 7-of-clubs snapshot yields
`card_value / 13 = (49/52) / 13 = 49/676`. -/
theorem reward_no_trick_fallback_witness :
    compute_reward clubsSevenState 0 1 false = some (49/676) := by
  have h := reward_no_trick_fallback clubsSevenState 0 1 false ⟨Suit.club, 7⟩
    rfl rfl (by simp) rfl
  rw [h.1, card_value_other ⟨Suit.club, 7⟩ (by simp [RANK_QUEEN]) (by simp)]
  norm_num

/-- C6: the per-card base value is monotonically non-decreasing in rank
within each fixed suit category (spade queen, hearts, other cards), and
the spade queen's value strictly exceeds that of any non-heart,
non-penalty card of equal rank. -/
theorem card_value_monotone :
    (∀ c₁ c₂ : Card,
      c₁.suit = Suit.spade ∧ c₁.rank = RANK_QUEEN →
      c₂.suit = Suit.spade ∧ c₂.rank = RANK_QUEEN →
      c₁.rank ≤ c₂.rank → card_value c₁ ≤ card_value c₂) ∧
    (∀ c₁ c₂ : Card, c₁.suit = Suit.heart → c₂.suit = Suit.heart →
      c₁.rank ≤ c₂.rank → card_value c₁ ≤ card_value c₂) ∧
    (∀ c₁ c₂ : Card,
      ¬(c₁.suit = Suit.spade ∧ c₁.rank = RANK_QUEEN) → c₁.suit ≠ Suit.heart →
      ¬(c₂.suit = Suit.spade ∧ c₂.rank = RANK_QUEEN) → c₂.suit ≠ Suit.heart →
      c₁.rank ≤ c₂.rank → card_value c₁ ≤ card_value c₂) ∧
    (∀ c : Card,
      ¬(c.suit = Suit.spade ∧ c.rank = RANK_QUEEN) → c.suit ≠ Suit.heart →
      c.rank = RANK_QUEEN →
      card_value c < card_value ⟨Suit.spade, RANK_QUEEN⟩) := by
  refine ⟨?_, ?_, ?_, ?_⟩
  · intro c₁ c₂ h₁ h₂ _
    rw [card_value_spade_queen c₁ h₁, card_value_spade_queen c₂ h₂,
      get_penalty_spade_queen c₁ h₁, get_penalty_spade_queen c₂ h₂]
  · intro c₁ c₂ h₁ h₂ hr
    rw [card_value_heart c₁ h₁, card_value_heart c₂ h₂,
      get_penalty_heart c₁ h₁, get_penalty_heart c₂ h₂]
    have hc : (c₁.rank : ℚ) ≤ (c₂.rank : ℚ) := Nat.cast_le.mpr hr
    have key : ((c₁.rank : ℚ) / 13) ^ 2 ≤ ((c₂.rank : ℚ) / 13) ^ 2 := by
      apply pow_le_pow_left₀ (by positivity)
      exact (div_le_div_iff_of_pos_right (by norm_num)).mpr hc
    linarith
  · intro c₁ c₂ h₁ h₁h h₂ h₂h hr
    rw [card_value_other c₁ h₁ h₁h, card_value_other c₂ h₂ h₂h]
    have hc : (c₁.rank : ℚ) ≤ (c₂.rank : ℚ) := Nat.cast_le.mpr hr
    have key : ((c₁.rank : ℚ) / 13) ^ 2 ≤ ((c₂.rank : ℚ) / 13) ^ 2 := by
      apply pow_le_pow_left₀ (by positivity)
      exact (div_le_div_iff_of_pos_right (by norm_num)).mpr hc
    linarith
  · intro c h1 h2 hr
    rw [card_value_other c h1 h2, card_value_spade_queen _ ⟨rfl, rfl⟩,
      get_penalty_spade_queen _ ⟨rfl, rfl⟩, hr]
    norm_num [RANK_QUEEN]

/-- C6 witness: a low heart is worth at most a high heart, and the club
queen is worth strictly less than the spade queen. -/
theorem card_value_monotone_witness :
    card_value ⟨Suit.heart, 5⟩ ≤ card_value ⟨Suit.heart, 9⟩ ∧
    card_value ⟨Suit.club, RANK_QUEEN⟩ < card_value ⟨Suit.spade, RANK_QUEEN⟩ :=
  ⟨card_value_monotone.2.1 ⟨Suit.heart, 5⟩ ⟨Suit.heart, 9⟩ rfl rfl (by norm_num),
   card_value_monotone.2.2.2 ⟨Suit.club, RANK_QUEEN⟩ (by decide) (by decide) rfl⟩

/-- C7 counterexample: for the 7 of clubs with no trick ever closed, the
card value does equal `0.25 * (7/13)^2 * 13`, but that number is `49/52 ≈
0.942`, not `≈ 0.907`, and the returned reward is `49/676 ≈ 0.0725`, not
`≈ 0.0698`. -/
theorem reward_clubs_seven_counterexample :
    card_value ⟨Suit.club, 7⟩ = (1/4) * ((7 : ℚ) / 13) ^ 2 * 13 ∧
    compute_reward clubsSevenState 0 1 false = some (card_value ⟨Suit.club, 7⟩ / 13) ∧
    ¬(|card_value ⟨Suit.club, 7⟩ - 907/1000| ≤ 1/100) ∧
    ¬(|card_value ⟨Suit.club, 7⟩ / 13 - 698/10000| ≤ 1/1000) := by
  have hv : card_value ⟨Suit.club, 7⟩ = 49/52 := by
    rw [card_value_other ⟨Suit.club, 7⟩ (by decide) (by decide)]
    norm_num
  refine ⟨?_, ?_, ?_, ?_⟩
  · rw [card_value_other ⟨Suit.club, 7⟩ (by decide) (by decide)]
    norm_num
  · exact compute_reward_no_trick clubsSevenState 0 1 false ⟨Suit.club, 7⟩
      rfl rfl (by simp) rfl
  · rw [hv]
    simp only [not_le]
    rw [abs_of_pos (by norm_num)]
    norm_num
  · rw [hv]
    simp only [not_le]
    rw [abs_of_pos (by norm_num)]
    norm_num

/-- C7 amended: for the 7 of clubs with no trick ever closed, the card
value equals `0.25 * (7/13)^2 * 13 = 49/52 ≈ 0.942` and the returned
reward equals `49/676 ≈ 0.0725`. -/
theorem reward_clubs_seven_example :
    card_value ⟨Suit.club, 7⟩ = (1/4) * ((7 : ℚ) / 13) ^ 2 * 13 ∧
    card_value ⟨Suit.club, 7⟩ = 49/52 ∧
    compute_reward clubsSevenState 0 1 false = some (49/676) ∧
    |card_value ⟨Suit.club, 7⟩ - 942/1000| ≤ 1/100 ∧
    |(49 : ℚ)/676 - 725/10000| ≤ 1/1000 := by
  have hv : card_value ⟨Suit.club, 7⟩ = 49/52 := by
    rw [card_value_other ⟨Suit.club, 7⟩ (by decide) (by decide)]
    norm_num
  refine ⟨?_, hv, ?_, ?_, ?_⟩
  · rw [card_value_other ⟨Suit.club, 7⟩ (by decide) (by decide)]
    norm_num
  · rw [compute_reward_no_trick clubsSevenState 0 1 false ⟨Suit.club, 7⟩
      rfl rfl (by simp) rfl, hv]
    norm_num
  · rw [hv, abs_of_pos (by norm_num)]
    norm_num
  · rw [abs_of_neg (by norm_num)]
    norm_num

/-- C8: `compute_reward` is a pure, deterministic function of the
snapshot and its arguments: two calls over snapshots that agree field by
field, with identical arguments, return the same value. -/
theorem reward_deterministic (g₁ g₂ : GameState) (p a : ℕ) (t : Bool)
    (hIll : ∀ q, g₁.prev_was_illegals q = g₂.prev_was_illegals q)
    (hCards : ∀ q, g₁.prev_played_cards q = g₂.prev_played_cards q)
    (hW : g₁.prev_trick_winner_index = g₂.prev_trick_winner_index)
    (hL : g₁.prev_leading_player_index = g₂.prev_leading_player_index)
    (hT : g₁.prev_trick_penalty = g₂.prev_trick_penalty)
    (hMP : g₁.max_penalty = g₂.max_penalty)
    (hN : g₁.max_num_cards_on_hand = g₂.max_num_cards_on_hand)
    (hMoon : ∀ q, g₁.has_shot_the_moon q = g₂.has_shot_the_moon q) :
    compute_reward g₁ p a t = compute_reward g₂ p a t := by
  have hgg : g₁ = g₂ :=
    GameState.ext (funext hIll) (funext hCards) hW hL hT hMP hN (funext hMoon)
  rw [hgg]

/-- C8 witness: two field-for-field identical snapshot literals yield the
same reward. -/
theorem reward_deterministic_witness :
    compute_reward baseState 0 1 false = compute_reward baseStateCopy 0 1 false :=
  reward_deterministic baseState baseStateCopy 0 1 false
    (fun _ => rfl) (fun _ => rfl) rfl rfl rfl rfl rfl (fun _ => rfl)

/-- C9: the `prev_active_player_index` argument never influences the
returned reward. -/
theorem reward_ignores_acting_player (g : GameState) (p : ℕ) (t : Bool)
    (a₁ a₂ : ℕ) :
    compute_reward g p a₁ t = compute_reward g p a₂ t := rfl

/-- C10: exactly one of the four (won, led) branches matches, and
`compute_reward` always returns a numeric value (it never falls off the
end of the `if`/`elif` chain). -/
theorem reward_total (g : GameState) (p a : ℕ) (t : Bool) :
    (∃ r : ℚ, compute_reward g p a t = some r) ∧
    (((g.prev_trick_winner_index = p ∧ g.prev_leading_player_index = p) ∧
        ¬(g.prev_trick_winner_index = p ∧ g.prev_leading_player_index ≠ p) ∧
        ¬(g.prev_trick_winner_index ≠ p ∧ g.prev_leading_player_index = p) ∧
        ¬(g.prev_trick_winner_index ≠ p ∧ g.prev_leading_player_index ≠ p)) ∨
      (¬(g.prev_trick_winner_index = p ∧ g.prev_leading_player_index = p) ∧
        (g.prev_trick_winner_index = p ∧ g.prev_leading_player_index ≠ p) ∧
        ¬(g.prev_trick_winner_index ≠ p ∧ g.prev_leading_player_index = p) ∧
        ¬(g.prev_trick_winner_index ≠ p ∧ g.prev_leading_player_index ≠ p)) ∨
      (¬(g.prev_trick_winner_index = p ∧ g.prev_leading_player_index = p) ∧
        ¬(g.prev_trick_winner_index = p ∧ g.prev_leading_player_index ≠ p) ∧
        (g.prev_trick_winner_index ≠ p ∧ g.prev_leading_player_index = p) ∧
        ¬(g.prev_trick_winner_index ≠ p ∧ g.prev_leading_player_index ≠ p)) ∨
      (¬(g.prev_trick_winner_index = p ∧ g.prev_leading_player_index = p) ∧
        ¬(g.prev_trick_winner_index = p ∧ g.prev_leading_player_index ≠ p) ∧
        ¬(g.prev_trick_winner_index ≠ p ∧ g.prev_leading_player_index = p) ∧
        (g.prev_trick_winner_index ≠ p ∧ g.prev_leading_player_index ≠ p))) := by
  constructor
  · cases hI : g.prev_was_illegals p with
    | true => exact ⟨_, compute_reward_illegal g p a t hI⟩
    | false =>
      cases hC : g.prev_played_cards p with
      | none => exact ⟨0, compute_reward_no_card g p a t hI hC⟩
      | some card =>
        by_cases hM : t = true ∧ g.has_shot_the_moon p = true
        · exact ⟨_, compute_reward_moon g p a t card hI hC hM⟩
        · cases hT : g.prev_trick_penalty with
          | none => exact ⟨_, compute_reward_no_trick g p a t card hI hC hM hT⟩
          | some T =>
            by_cases hw : g.prev_trick_winner_index = p <;>
              by_cases hl : g.prev_leading_player_index = p
            · exact ⟨_, compute_reward_won_led g p a t card T hI hC hM hT hw hl⟩
            · exact ⟨_, compute_reward_won_not_led g p a t card T hI hC hM hT hw hl⟩
            · exact ⟨_, compute_reward_not_won_led g p a t card T hI hC hM hT hw hl⟩
            · exact ⟨_, compute_reward_not_won_not_led g p a t card T hI hC hM hT hw hl⟩
  · by_cases hw : g.prev_trick_winner_index = p <;>
      by_cases hl : g.prev_leading_player_index = p
    · exact Or.inl ⟨⟨hw, hl⟩, fun h => h.2 hl, fun h => h.1 hw, fun h => h.1 hw⟩
    · exact Or.inr (Or.inl ⟨fun h => hl h.2, ⟨hw, hl⟩, fun h => h.1 hw, fun h => h.1 hw⟩)
    · exact Or.inr (Or.inr (Or.inl ⟨fun h => hw h.1, fun h => hw h.1, ⟨hw, hl⟩,
        fun h => h.2 hl⟩))
    · exact Or.inr (Or.inr (Or.inr ⟨fun h => hw h.1, fun h => hw h.1, fun h => hl h.2,
        ⟨hw, hl⟩⟩))

/-- C10 witness: on the quiescent snapshot the reward is defined and the
(won, led) case analysis picks out exactly the first branch. -/
theorem reward_total_witness :
    (∃ r : ℚ, compute_reward baseState 0 1 false = some r) ∧
    (((baseState.prev_trick_winner_index = 0 ∧ baseState.prev_leading_player_index = 0) ∧
        ¬(baseState.prev_trick_winner_index = 0 ∧ baseState.prev_leading_player_index ≠ 0) ∧
        ¬(baseState.prev_trick_winner_index ≠ 0 ∧ baseState.prev_leading_player_index = 0) ∧
        ¬(baseState.prev_trick_winner_index ≠ 0 ∧ baseState.prev_leading_player_index ≠ 0)) ∨
      (¬(baseState.prev_trick_winner_index = 0 ∧ baseState.prev_leading_player_index = 0) ∧
        (baseState.prev_trick_winner_index = 0 ∧ baseState.prev_leading_player_index ≠ 0) ∧
        ¬(baseState.prev_trick_winner_index ≠ 0 ∧ baseState.prev_leading_player_index = 0) ∧
        ¬(baseState.prev_trick_winner_index ≠ 0 ∧ baseState.prev_leading_player_index ≠ 0)) ∨
      (¬(baseState.prev_trick_winner_index = 0 ∧ baseState.prev_leading_player_index = 0) ∧
        ¬(baseState.prev_trick_winner_index = 0 ∧ baseState.prev_leading_player_index ≠ 0) ∧
        (baseState.prev_trick_winner_index ≠ 0 ∧ baseState.prev_leading_player_index = 0) ∧
        ¬(baseState.prev_trick_winner_index ≠ 0 ∧ baseState.prev_leading_player_index ≠ 0)) ∨
      (¬(baseState.prev_trick_winner_index = 0 ∧ baseState.prev_leading_player_index = 0) ∧
        ¬(baseState.prev_trick_winner_index = 0 ∧ baseState.prev_leading_player_index ≠ 0) ∧
        ¬(baseState.prev_trick_winner_index ≠ 0 ∧ baseState.prev_leading_player_index = 0) ∧
        (baseState.prev_trick_winner_index ≠ 0 ∧ baseState.prev_leading_player_index ≠ 0))) :=
  reward_total baseState 0 1 false
